import Mathlib

set_option maxHeartbeats 1000000

/-! Verification development for the ACDEF configuration and Firebase
integration layer. The Python modules config.py and firebase_integration.py
are shallowly embedded: dataclass records become structures, floats become
exact rationals (only order comparisons occur), dictionaries become
association lists, and fallible operations return Except values. -/

/-- Embedding of the ACDEFConfig dataclass from config.py. Field names and
order follow the source; Python floats are modelled as rationals, Python ints
as integers. -/
structure ACDEFConfig where
  SYSTEM_NAME : String
  VERSION : String
  LOG_LEVEL : String
  FIREBASE_CREDENTIALS_PATH : Option String
  FIREBASE_PROJECT_ID : String
  FIRESTORE_COLLECTION_PREFIX : String
  RL_EXPLORATION_RATE : ℚ
  RL_LEARNING_RATE : ℚ
  RL_DISCOUNT_FACTOR : ℚ
  EVOLUTION_POPULATION_SIZE : Int
  EVOLUTION_MUTATION_RATE : ℚ
  EVOLUTION_CROSSOVER_RATE : ℚ
  EVOLUTION_ELITISM_COUNT : Int
  DOMAIN_SYNC_INTERVAL_SECONDS : Int
  MAX_DOMAIN_CONNECTIONS : Int
  MONITORING_ENABLED : Bool
  PERFORMANCE_WINDOW_SIZE : Int
  DECISION_THRESHOLD : ℚ
  MAX_RETRIES : Int
  RETRY_DELAY_SECONDS : ℚ
  TIMEOUT_SECONDS : ℚ
  DATA_DIR : String
  LOGS_DIR : String
  MODELS_DIR : String
deriving DecidableEq

/-- Dataclass defaults of ACDEFConfig, taken verbatim from config.py. -/
def defaultConfig : ACDEFConfig :=
  { SYSTEM_NAME := "ACDEF"
  , VERSION := "1.0.0"
  , LOG_LEVEL := "INFO"
  , FIREBASE_CREDENTIALS_PATH := none
  , FIREBASE_PROJECT_ID := "acdef-evolution"
  , FIRESTORE_COLLECTION_PREFIX := "acdef_"
  , RL_EXPLORATION_RATE := mkRat 3 10
  , RL_LEARNING_RATE := mkRat 1 100
  , RL_DISCOUNT_FACTOR := mkRat 95 100
  , EVOLUTION_POPULATION_SIZE := 50
  , EVOLUTION_MUTATION_RATE := mkRat 1 10
  , EVOLUTION_CROSSOVER_RATE := mkRat 7 10
  , EVOLUTION_ELITISM_COUNT := 5
  , DOMAIN_SYNC_INTERVAL_SECONDS := 60
  , MAX_DOMAIN_CONNECTIONS := 10
  , MONITORING_ENABLED := true
  , PERFORMANCE_WINDOW_SIZE := 100
  , DECISION_THRESHOLD := mkRat 7 10
  , MAX_RETRIES := 3
  , RETRY_DELAY_SECONDS := 1
  , TIMEOUT_SECONDS := 30
  , DATA_DIR := "./data"
  , LOGS_DIR := "./logs"
  , MODELS_DIR := "./models" }

/-- Embedding of ACDEFConfig._validate_config. The three checks and the
error message texts follow the source lines 59-68; the interpolated value is
rendered with toString in place of the Python formatting of the value. -/
def ACDEFConfig._validate_config (c : ACDEFConfig) : Except String Unit :=
  if ¬ (0 ≤ c.RL_EXPLORATION_RATE ∧ c.RL_EXPLORATION_RATE ≤ 1) then
    Except.error
      ("RL_EXPLORATION_RATE must be between 0 and 1, got " ++
        toString c.RL_EXPLORATION_RATE)
  else if ¬ (0 ≤ c.EVOLUTION_MUTATION_RATE ∧ c.EVOLUTION_MUTATION_RATE ≤ 1) then
    Except.error
      ("EVOLUTION_MUTATION_RATE must be between 0 and 1, got " ++
        toString c.EVOLUTION_MUTATION_RATE)
  else if c.EVOLUTION_POPULATION_SIZE < 10 then
    Except.error
      ("EVOLUTION_POPULATION_SIZE must be at least 10, got " ++
        toString c.EVOLUTION_POPULATION_SIZE)
  else Except.ok ()

/-- Embedding of dataclass construction: the field values are assembled and
then __post_init__ runs _validate_config; the record is returned only when
validation passes, otherwise the ValueError propagates. -/
def ACDEFConfig.construct (c : ACDEFConfig) : Except String ACDEFConfig :=
  match ACDEFConfig._validate_config c with
  | Except.ok _ => Except.ok c
  | Except.error e => Except.error e

/-- The conjunction of the three validation constraints, stated directly. -/
def validCfg (c : ACDEFConfig) : Prop :=
  (0 ≤ c.RL_EXPLORATION_RATE ∧ c.RL_EXPLORATION_RATE ≤ 1) ∧
  (0 ≤ c.EVOLUTION_MUTATION_RATE ∧ c.EVOLUTION_MUTATION_RATE ≤ 1) ∧
  10 ≤ c.EVOLUTION_POPULATION_SIZE

instance (c : ACDEFConfig) : Decidable (validCfg c) := by
  unfold validCfg; infer_instance

/-- Embedding of the Python test k.startswith with the one-character
argument used in to_dict: true exactly when the first character of s is an
underscore. Stated over the character list so that it evaluates by
definitional unfolding. -/
def startsWithUnderscore (s : String) : Bool :=
  match s.data with
  | [] => false
  | c :: _ => c == '_'

/-- Embedding of the Python str.lower operation used by the specification
wording for the log file name: lowercase every character. -/
def strToLower (s : String) : String := String.mk (s.data.map Char.toLower)

/-- Values that can occur in the dictionary view of the configuration. -/
inductive PyVal where
  | s (v : String)
  | q (v : ℚ)
  | i (v : Int)
  | b (v : Bool)
  | os (v : Option String)
deriving DecidableEq

/-- The instance dictionary of an ACDEFConfig object: every dataclass field,
in declaration order, paired with its value. This models Python
self.__dict__.items() for the dataclass. -/
def configItems (c : ACDEFConfig) : List (String × PyVal) :=
  [ ("SYSTEM_NAME", PyVal.s c.SYSTEM_NAME)
  , ("VERSION", PyVal.s c.VERSION)
  , ("LOG_LEVEL", PyVal.s c.LOG_LEVEL)
  , ("FIREBASE_CREDENTIALS_PATH", PyVal.os c.FIREBASE_CREDENTIALS_PATH)
  , ("FIREBASE_PROJECT_ID", PyVal.s c.FIREBASE_PROJECT_ID)
  , ("FIRESTORE_COLLECTION_PREFIX", PyVal.s ( ACDEFConfig.FIRESTORE_COLLECTION_PREFIX c))
  , ("RL_EXPLORATION_RATE", PyVal.q c.RL_EXPLORATION_RATE)
  , ("RL_LEARNING_RATE", PyVal.q c.RL_LEARNING_RATE)
  , ("RL_DISCOUNT_FACTOR", PyVal.q c.RL_DISCOUNT_FACTOR)
  , ("EVOLUTION_POPULATION_SIZE", PyVal.i c.EVOLUTION_POPULATION_SIZE)
  , ("EVOLUTION_MUTATION_RATE", PyVal.q c.EVOLUTION_MUTATION_RATE)
  , ("EVOLUTION_CROSSOVER_RATE", PyVal.q c.EVOLUTION_CROSSOVER_RATE)
  , ("EVOLUTION_ELITISM_COUNT", PyVal.i c.EVOLUTION_ELITISM_COUNT)
  , ("DOMAIN_SYNC_INTERVAL_SECONDS", PyVal.i c.DOMAIN_SYNC_INTERVAL_SECONDS)
  , ("MAX_DOMAIN_CONNECTIONS", PyVal.i c.MAX_DOMAIN_CONNECTIONS)
  , ("MONITORING_ENABLED", PyVal.b c.MONITORING_ENABLED)
  , ("PERFORMANCE_WINDOW_SIZE", PyVal.i c.PERFORMANCE_WINDOW_SIZE)
  , ("DECISION_THRESHOLD", PyVal.q c.DECISION_THRESHOLD)
  , ("MAX_RETRIES", PyVal.i c.MAX_RETRIES)
  , ("RETRY_DELAY_SECONDS", PyVal.q c.RETRY_DELAY_SECONDS)
  , ("TIMEOUT_SECONDS", PyVal.q c.TIMEOUT_SECONDS)
  , ("DATA_DIR", PyVal.s c.DATA_DIR)
  , ("LOGS_DIR", PyVal.s c.LOGS_DIR)
  , ("MODELS_DIR", PyVal.s c.MODELS_DIR) ]

/-- Embedding of ACDEFConfig.to_dict, config.py lines 70-72: keep every item
of the instance dictionary whose key does not start with an underscore. -/
def ACDEFConfig.to_dict (c : ACDEFConfig) : List (String × PyVal) :=
  (configItems c).filter (fun kv => !(startsWithUnderscore kv.1))

/-- Embedding of the file-sink path used by setup_logging, config.py line 97:
the f-string interpolates LOGS_DIR in front of the literal file name
acdef.log. -/
def logFilePath (c : ACDEFConfig) : String := c.LOGS_DIR ++ "/acdef.log"

/-- Stated from the words of the specification, for comparison with
logFilePath: the logs directory joined with the lowercased system name
followed by the .log suffix. -/
def specLogFilePath (c : ACDEFConfig) : String :=
  c.LOGS_DIR ++ "/" ++ strToLower c.SYSTEM_NAME ++ ".log"

/-- The two logging sinks of the root-logger configuration. -/
inductive LogHandler where
  | fileHandler (path : String)
  | streamHandler
deriving DecidableEq

/-- Embedding of the handlers list passed to logging.basicConfig in
setup_logging, config.py lines 96-99. -/
def setup_logging_handlers (c : ACDEFConfig) : List LogHandler :=
  [LogHandler.fileHandler (logFilePath c), LogHandler.streamHandler]

/-- Errors of the filesystem layer: osError is a raw error raised by the
operating system interface; directoryCreationError is the wrapper the
specification describes. -/
inductive FsError where
  | osError (msg : String)
  | directoryCreationError (msg : String)
deriving DecidableEq

/-- Embedding of os.makedirs over an abstract filesystem environment: env d
is none when creating d (with exist_ok) succeeds and some msg when the
operating system reports a failure with message msg. -/
def makedirs (env : String → Option String) (d : String) : Except FsError Unit :=
  match env d with
  | none => Except.ok ()
  | some e => Except.error (FsError.osError e)

/-- Embedding of ACDEFConfig.setup_directories, config.py lines 74-78: call
makedirs on DATA_DIR, LOGS_DIR and MODELS_DIR in order; there is no handler
in the source, so the first error propagates unchanged. -/
def ACDEFConfig.setup_directories (env : String → Option String)
    (c : ACDEFConfig) : Except FsError Unit :=
  match makedirs env c.DATA_DIR with
  | Except.error e => Except.error e
  | Except.ok _ =>
    match makedirs env c.LOGS_DIR with
    | Except.error e => Except.error e
    | Except.ok _ => makedirs env c.MODELS_DIR

/-- Embedding of a naive Python datetime value as used by
FirestoreDocument: calendar and clock fields plus microseconds. -/
structure Datetime where
  year : Nat
  month : Nat
  day : Nat
  hour : Nat
  minute : Nat
  second : Nat
  microsecond : Nat
deriving DecidableEq

/-- Range constraints of the fields of a Python datetime value. -/
def dtValid (d : Datetime) : Prop :=
  1 ≤ d.year ∧ d.year ≤ 9999 ∧ 1 ≤ d.month ∧ d.month ≤ 12 ∧ 1 ≤ d.day ∧ d.day ≤ 31 ∧
  d.hour ≤ 23 ∧ d.minute ≤ 59 ∧ d.second ≤ 59 ∧ d.microsecond ≤ 999999

instance (d : Datetime) : Decidable (dtValid d) := by
  unfold dtValid; infer_instance

/-- Chronological order of datetime values: lexicographic comparison of the
fields from the year down to the microsecond. -/
def dtLt (a b : Datetime) : Prop :=
  a.year < b.year ∨ (a.year = b.year ∧ (a.month < b.month ∨ (a.month = b.month ∧
    (a.day < b.day ∨ (a.day = b.day ∧ (a.hour < b.hour ∨ (a.hour = b.hour ∧
      (a.minute < b.minute ∨ (a.minute = b.minute ∧ (a.second < b.second ∨
        (a.second = b.second ∧ a.microsecond < b.microsecond)))))))))))

instance (a b : Datetime) : Decidable (dtLt a b) := by
  unfold dtLt; infer_instance

/-- Fixed-width decimal rendering: the k least significant decimal digits of
n, most significant first, zero padded. -/
def padC : Nat → Nat → List Char
  | 0, _ => []
  | k+1, n => padC k (n / 10) ++ [Nat.digitChar (n % 10)]

/-- Fractional-seconds suffix of the Python datetime isoformat rendering:
empty when the microsecond field is zero, otherwise a dot followed by six
zero-padded digits. -/
def usecSuffix (us : Nat) : List Char :=
  if us = 0 then [] else '.' :: padC 6 us

/-- Character sequence of the Python datetime isoformat rendering:
the zero-padded date and clock fields joined by the usual separators, with
the optional microsecond suffix. -/
def isoChars (d : Datetime) : List Char :=
  padC 4 d.year ++ '-' :: (padC 2 d.month ++ '-' :: (padC 2 d.day ++
    'T' :: (padC 2 d.hour ++ ':' :: (padC 2 d.minute ++ ':' :: (padC 2 d.second ++
      usecSuffix d.microsecond)))))

/-- Embedding of datetime.isoformat as used in FirestoreDocument.to_dict. -/
def isoformat (d : Datetime) : String := String.mk (isoChars d)

/-- Embedding of the FirestoreDocument dataclass,
firebase_integration.py lines 21-26. -/
structure FirestoreDocument where
  id : Option String
  created_at : Datetime
  updated_at : Datetime
deriving DecidableEq

/-- Embedding of FirestoreDocument.to_dict, firebase_integration.py lines
28-33: the field dictionary in declaration order with both timestamps
rendered by isoformat, keeping only the items whose value is not None. -/
def FirestoreDocument.to_dict (doc : FirestoreDocument) :
    List (String × Option String) :=
  ([ ("id", doc.id)
   , ("created_at", some (isoformat doc.created_at))
   , ("updated_at", some (isoformat doc.updated_at)) ]).filter (fun kv => kv.2.isSome)

/-- Outcome of one underlying connection-establishment attempt by the
external client library, which this layer treats as an opaque call. -/
inductive ConnOutcome where
  | success
  | failure (e : String)
deriving DecidableEq

/-- Python truthiness of an optional string: None and the empty string are
falsy, every other string is truthy. -/
def pyTruthyOptStr : Option String → Bool
  | none => false
  | some s => !(s == "")

/-- Embedding of the Python expression a or b for optional strings: yields a
when a is truthy, and b otherwise. -/
def pyOrOptStr (a b : Option String) : Option String :=
  if pyTruthyOptStr a then a else b

/-- Embedding of the FirebaseManager state, firebase_integration.py lines
41-57: credential path, optional app and client handles, initialization
flag, heartbeat, attempt counter and the retry ceiling copied from the
configuration. The lock object carries no sequential state and is omitted. -/
structure FirebaseManager where
  credential_path : Option String
  app : Option Unit
  db : Option Unit
  _initialized : Bool
  last_heartbeat : Datetime
  connection_attempts : Nat
  max_retries : Int
deriving DecidableEq

/-- Embedding of the FirebaseManager constructor with a given configuration:
the credential path argument falls back to the configured default through
the Python or expression; handles absent; flag false; counters zeroed; the
heartbeat takes the construction time. -/
def FirebaseManager.mkManager (credential_path : Option String)
    (cfg : ACDEFConfig) (now : Datetime) : FirebaseManager :=
  { credential_path := pyOrOptStr credential_path cfg.FIREBASE_CREDENTIALS_PATH
  , app := none
  , db := none
  , _initialized := false
  , last_heartbeat := now
  , connection_attempts := 0
  , max_retries := cfg.MAX_RETRIES }

/-- Modelled from the spec: the body of the FirebaseManager initialization
routine after its early-return check is missing from the source file, which
is truncated at line 73. The state check with immediate success return
(source lines 66-69) is embedded from the source; the remainder follows
section 4.3 of the specification: one connection attempt per call, setting
the handle, the flag and the heartbeat on success, and incrementing the
attempt counter on failure. The outcome of the opaque external attempt is
passed as a parameter. -/
def FirebaseManager.managerInit (m : FirebaseManager) (outcome : ConnOutcome)
    (now : Datetime) : Bool × FirebaseManager :=
  if m._initialized = true ∧ m.db ≠ none then
    (true, m)
  else
    match outcome with
    | ConnOutcome.success =>
      (true, { m with
               app := some ()
               db := some ()
               _initialized := true
               last_heartbeat := now })
    | ConnOutcome.failure _ =>
      (false, { m with connection_attempts := m.connection_attempts + 1 })

/-- States of a manager reachable from construction by any sequence of
initialization calls with arbitrary attempt outcomes. -/
inductive Reachable (cfg : ACDEFConfig) : FirebaseManager → Prop where
  | init : ∀ cp now, Reachable cfg (FirebaseManager.mkManager cp cfg now)
  | step : ∀ m outcome now, Reachable cfg m →
      Reachable cfg (FirebaseManager.managerInit m outcome now).2

/-- A sample datetime with a zero microsecond field. -/
def dtA : Datetime := { year := 2024, month := 1, day := 2, hour := 3, minute := 4, second := 5, microsecond := 0 }

/-- A sample datetime later than dtA, with a positive microsecond field. -/
def dtB : Datetime := { year := 2024, month := 1, day := 2, hour := 3, minute := 4, second := 5, microsecond := 999 }

/-- A sample document with an assigned identifier. -/
def docW : FirestoreDocument := { id := some "abc", created_at := dtA, updated_at := dtB }

/-- A manager state that is already initialized with a present handle. -/
def readyManager : FirebaseManager :=
  { credential_path := none
  , app := some ()
  , db := some ()
  , _initialized := true
  , last_heartbeat := dtA
  , connection_attempts := 1
  , max_retries := 3 }

/-- A configuration override with an exploration rate above one. -/
def badExploration : ACDEFConfig := { defaultConfig with RL_EXPLORATION_RATE := 2 }

/-- A configuration override with a learning rate above one; the learning
rate is not checked by _validate_config. -/
def badLearning : ACDEFConfig := { defaultConfig with RL_LEARNING_RATE := 2 }

/-- A configuration override whose system name does not lowercase to the
default acdef. -/
def zebraConfig : ACDEFConfig := { defaultConfig with SYSTEM_NAME := "Zebra" }

/-- A filesystem environment in which creating the data directory fails with
a permission error and every other creation succeeds. -/
def permDeniedEnv : String → Option String :=
  fun d => if d = "./data" then some "Permission denied" else none

/-- C1: construction succeeds exactly on the three constraints, never
returns a record other than the validated one, and on each violation fails
with the descriptive error of the source naming the offending field. -/
theorem claim_C1_construct_validation (c : ACDEFConfig) :
    (ACDEFConfig.construct c = Except.ok c ↔ validCfg c) ∧
    (∀ r, ACDEFConfig.construct c = Except.ok r → r = c ∧ validCfg r) ∧
    (¬ (0 ≤ c.RL_EXPLORATION_RATE ∧ c.RL_EXPLORATION_RATE ≤ 1) →
      ACDEFConfig.construct c = Except.error
        ("RL_EXPLORATION_RATE must be between 0 and 1, got " ++
          toString c.RL_EXPLORATION_RATE)) ∧
    ((0 ≤ c.RL_EXPLORATION_RATE ∧ c.RL_EXPLORATION_RATE ≤ 1) →
      ¬ (0 ≤ c.EVOLUTION_MUTATION_RATE ∧ c.EVOLUTION_MUTATION_RATE ≤ 1) →
      ACDEFConfig.construct c = Except.error
        ("EVOLUTION_MUTATION_RATE must be between 0 and 1, got " ++
          toString c.EVOLUTION_MUTATION_RATE)) ∧
    ((0 ≤ c.RL_EXPLORATION_RATE ∧ c.RL_EXPLORATION_RATE ≤ 1) →
      (0 ≤ c.EVOLUTION_MUTATION_RATE ∧ c.EVOLUTION_MUTATION_RATE ≤ 1) →
      c.EVOLUTION_POPULATION_SIZE < 10 →
      ACDEFConfig.construct c = Except.error
        ("EVOLUTION_POPULATION_SIZE must be at least 10, got " ++
          toString c.EVOLUTION_POPULATION_SIZE)) := by
  unfold ACDEFConfig.construct ACDEFConfig._validate_config validCfg
  split_ifs with h1 h2 h3 <;>
    refine ⟨?_, ?_, ?_, ?_, ?_⟩ <;>
    simp_all

/-- Witness for C1 at concrete inputs: the default configuration constructs
and an exploration rate of two is rejected with the error naming the field. -/
theorem claim_C1_witness :
    ACDEFConfig.construct defaultConfig = Except.ok defaultConfig ∧
    ACDEFConfig.construct badExploration = Except.error
      ("RL_EXPLORATION_RATE must be between 0 and 1, got " ++
        toString badExploration.RL_EXPLORATION_RATE) :=
  ⟨(claim_C1_construct_validation defaultConfig).1.mpr (by decide),
   (claim_C1_construct_validation badExploration).2.2.1 (by decide)⟩
/-- Helper: string concatenation is associative. -/
theorem strAppend_assoc (a b c : String) : (a ++ b) ++ c = a ++ (b ++ c) := by
  cases a with
  | mk la =>
    cases b with
    | mk lb =>
      cases c with
      | mk lc =>
        show String.mk ((la ++ lb) ++ lc) = String.mk (la ++ (lb ++ lc))
        rw [List.append_assoc]

/-- C4: for every validly constructed configuration the dictionary view is
exactly the full instance dictionary in field order, and no exposed key is
conventionally marked internal (starts with an underscore). The operation is
a pure function of the record. -/
theorem claim_C4_to_dict_public_fields (c : ACDEFConfig) (h : validCfg c) :
    ACDEFConfig.to_dict c = configItems c ∧
    ∀ kv ∈ ACDEFConfig.to_dict c, startsWithUnderscore kv.1 = false := by
  have hfilter : ACDEFConfig.to_dict c = configItems c := by
    unfold ACDEFConfig.to_dict configItems
    rfl
  refine ⟨hfilter, ?_⟩
  intro kv hkv
  rw [hfilter] at hkv
  unfold configItems at hkv
  simp only [List.mem_cons, List.not_mem_nil, or_false] at hkv
  rcases hkv with rfl | rfl | rfl | rfl | rfl | rfl | rfl | rfl | rfl | rfl | rfl | rfl |
    rfl | rfl | rfl | rfl | rfl | rfl | rfl | rfl | rfl | rfl | rfl | rfl <;> rfl

/-- Witness for C4 at the default configuration. -/
theorem claim_C4_witness :
    ACDEFConfig.to_dict defaultConfig = configItems defaultConfig :=
  (claim_C4_to_dict_public_fields defaultConfig (by decide)).1

/-- Counterexample to C5 as stated: for the configuration whose system name
is Zebra, the attached file sink path is the logs directory joined with the
literal acdef.log and differs from the path built from the lowercased system
name. -/
theorem claim_C5_counterexample :
    setup_logging_handlers zebraConfig =
      [LogHandler.fileHandler "./logs/acdef.log", LogHandler.streamHandler] ∧
    logFilePath zebraConfig ≠ specLogFilePath zebraConfig := by
  constructor
  · rfl
  · decide

/-- C5 amended: the file sink path is always the logs directory joined with
the literal name acdef.log; this agrees with the path claimed by the
specification exactly when the system name lowercases to acdef, as the
default system name does. -/
theorem claim_C5_amended_log_path (c : ACDEFConfig) :
    setup_logging_handlers c =
      [LogHandler.fileHandler (c.LOGS_DIR ++ "/acdef.log"), LogHandler.streamHandler] ∧
    (strToLower c.SYSTEM_NAME = "acdef" → logFilePath c = specLogFilePath c) := by
  constructor
  · rfl
  · intro h
    unfold logFilePath specLogFilePath
    rw [h, strAppend_assoc, strAppend_assoc]
    exact congrArg (fun t => c.LOGS_DIR ++ t) (by decide)

/-- Witness for C5 amended at the default configuration, whose system name
ACDEF lowercases to acdef. -/
theorem claim_C5_amended_witness :
    logFilePath defaultConfig = specLogFilePath defaultConfig :=
  (claim_C5_amended_log_path defaultConfig).2 (by decide)

/-- Counterexample to C6 as stated: a configuration whose learning rate is
two is constructed successfully, although that rate is outside the unit
interval. -/
theorem claim_C6_counterexample :
    ACDEFConfig.construct badLearning = Except.ok badLearning ∧
    ¬ badLearning.RL_LEARNING_RATE ≤ 1 := by
  constructor
  · rfl
  · decide

/-- C6 amended: every successfully constructed configuration has its
exploration rate and its mutation rate inside the unit interval; the
learning rate, discount factor and crossover rate are not constrained by
construction. -/
theorem claim_C6_amended_rate_bounds (c r : ACDEFConfig)
    (h : ACDEFConfig.construct c = Except.ok r) :
    (0 ≤ r.RL_EXPLORATION_RATE ∧ r.RL_EXPLORATION_RATE ≤ 1) ∧
    (0 ≤ r.EVOLUTION_MUTATION_RATE ∧ r.EVOLUTION_MUTATION_RATE ≤ 1) := by
  obtain ⟨rfl, hv⟩ := (claim_C1_construct_validation c).2.1 r h
  exact ⟨hv.1, hv.2.1⟩

/-- Witness for C6 amended at the default configuration. -/
theorem claim_C6_amended_witness :
    (0 ≤ defaultConfig.RL_EXPLORATION_RATE ∧ defaultConfig.RL_EXPLORATION_RATE ≤ 1) ∧
    (0 ≤ defaultConfig.EVOLUTION_MUTATION_RATE ∧ defaultConfig.EVOLUTION_MUTATION_RATE ≤ 1) :=
  claim_C6_amended_rate_bounds defaultConfig defaultConfig (by rfl)

/-- Counterexample to C7 as stated: when creating the data directory fails
with a permission error, setup_directories surfaces that raw operating
system error itself, which is never equal to a directoryCreationError
wrapper. -/
theorem claim_C7_counterexample :
    ACDEFConfig.setup_directories permDeniedEnv defaultConfig =
      Except.error (FsError.osError "Permission denied") ∧
    ∀ m, FsError.osError "Permission denied" ≠ FsError.directoryCreationError m := by
  constructor
  · rfl
  · intro m h
    exact FsError.noConfusion h

/-- C7 amended: whenever setup_directories fails, the surfaced error is the
raw operating system error of one of the three directory creations; no
wrapping into a directoryCreationError happens. -/
theorem claim_C7_amended_raw_propagation (env : String → Option String)
    (c : ACDEFConfig) (e : FsError)
    (h : ACDEFConfig.setup_directories env c = Except.error e) :
    ∃ m, e = FsError.osError m ∧
      (env c.DATA_DIR = some m ∨ env c.LOGS_DIR = some m ∨ env c.MODELS_DIR = some m) := by
  unfold ACDEFConfig.setup_directories makedirs at h
  cases hd : env c.DATA_DIR with
  | some m => rw [hd] at h; exact ⟨m, by injection h with h; exact h.symm, Or.inl rfl⟩
  | none =>
    rw [hd] at h
    cases hl : env c.LOGS_DIR with
    | some m => rw [hl] at h; exact ⟨m, by injection h with h; exact h.symm, Or.inr (Or.inl rfl)⟩
    | none =>
      rw [hl] at h
      cases hm : env c.MODELS_DIR with
      | some m => rw [hm] at h; exact ⟨m, by injection h with h; exact h.symm, Or.inr (Or.inr rfl)⟩
      | none => rw [hm] at h; exact absurd h (by simp)

/-- Witness for C7 amended at the permission-denied environment. -/
theorem claim_C7_amended_witness :
    ∃ m, FsError.osError "Permission denied" = FsError.osError m ∧
      (permDeniedEnv defaultConfig.DATA_DIR = some m ∨
        permDeniedEnv defaultConfig.LOGS_DIR = some m ∨
        permDeniedEnv defaultConfig.MODELS_DIR = some m) :=
  claim_C7_amended_raw_propagation permDeniedEnv defaultConfig
    (FsError.osError "Permission denied") (by rfl)

/-- Helper: a strict lexicographic comparison of equal-length lists extends
to any suffixes. -/
theorem lex_append_of_lex (s1 s2 : List Char) :
    ∀ {p1 p2 : List Char}, p1.length = p2.length →
      List.Lex (· < ·) p1 p2 → List.Lex (· < ·) (p1 ++ s1) (p2 ++ s2) := by
  intro p1 p2 hlen h
  revert hlen
  induction h with
  | nil => intro hlen; simp at hlen
  | cons h ih => intro hlen; exact List.Lex.cons (ih (by simpa using hlen))
  | rel h => intro hlen; exact List.Lex.rel h

/-- Helper: a strict lexicographic comparison is preserved under a common
list put in front. -/
theorem lex_append_same (p s1 s2 : List Char) (h : List.Lex (· < ·) s1 s2) :
    List.Lex (· < ·) (p ++ s1) (p ++ s2) := by
  induction p with
  | nil => simpa using h
  | cons a t ih => exact List.Lex.cons ih

/-- Helper: the fixed-width rendering has the requested width. -/
theorem padC_length (k : Nat) : ∀ n, (padC k n).length = k := by
  induction k with
  | zero => intro n; rfl
  | succ k ih => intro n; simp [padC, ih]

/-- Helper: decimal digit characters are ordered like the digits. -/
theorem digitChar_mono (x y : Nat) (hy : y < 10) (hxy : x < y) :
    Nat.digitChar x < Nat.digitChar y := by
  have hfin : ∀ a : Fin 10, ∀ b : Fin 10, a.val < b.val →
      Nat.digitChar a.val < Nat.digitChar b.val := by decide
  exact hfin ⟨x, lt_trans hxy hy⟩ ⟨y, hy⟩ hxy

/-- Helper: within a width that accommodates both numbers, the fixed-width
decimal rendering is strictly monotone for the lexicographic order. -/
theorem padC_lex (k : Nat) : ∀ a b : Nat, a < b → b < 10 ^ k →
    List.Lex (· < ·) (padC k a) (padC k b) := by
  induction k with
  | zero => intro a b hab hb; rw [pow_zero] at hb; omega
  | succ k ih =>
    intro a b hab hb
    have hquot : a / 10 ≤ b / 10 := Nat.div_le_div_right (Nat.le_of_lt hab)
    have hb10 : b / 10 < 10 ^ k := by
      have h1 : b < 10 ^ k * 10 := by rw [pow_succ] at hb; exact hb
      omega
    rcases Nat.lt_or_ge (a / 10) (b / 10) with hq | hq
    · exact lex_append_of_lex _ _ (by rw [padC_length, padC_length]) (ih _ _ hq hb10)
    · have heq : a / 10 = b / 10 := Nat.le_antisymm hquot hq
      have hmod : a % 10 < b % 10 := by omega
      show List.Lex (· < ·) (padC k (a / 10) ++ [Nat.digitChar (a % 10)])
        (padC k (b / 10) ++ [Nat.digitChar (b % 10)])
      rw [heq]
      exact lex_append_same _ _ _
        (List.Lex.rel (digitChar_mono _ _ (Nat.mod_lt _ (by omega)) hmod))

/-- Helper: chronological comparability of datetime values. -/
theorem dtLt_trichotomy (a b : Datetime) : dtLt a b ∨ a = b ∨ dtLt b a := by
  obtain ⟨a1, a2, a3, a4, a5, a6, a7⟩ := a
  obtain ⟨b1, b2, b3, b4, b5, b6, b7⟩ := b
  unfold dtLt
  simp only [Datetime.mk.injEq]
  omega

/-- Helper: bound transfer into the two-digit width. -/
theorem lt_pow2 (n : Nat) (h : n ≤ 99) : n < 10 ^ 2 := by
  have h2 : (10 : Nat) ^ 2 = 100 := by norm_num
  omega

/-- Helper: bound transfer into the four-digit width. -/
theorem lt_pow4 (n : Nat) (h : n ≤ 9999) : n < 10 ^ 4 := by
  have h2 : (10 : Nat) ^ 4 = 10000 := by norm_num
  omega

/-- Helper: bound transfer into the six-digit width. -/
theorem lt_pow6 (n : Nat) (h : n ≤ 999999) : n < 10 ^ 6 := by
  have h2 : (10 : Nat) ^ 6 = 1000000 := by norm_num
  omega

/-- Helper: the isoformat character sequence is strictly monotone from
chronological order to lexicographic order, for datetime values within the
field ranges. -/
theorem isoChars_lt_of_dtLt (a b : Datetime) (ha : dtValid a) (hb : dtValid b)
    (h : dtLt a b) : List.Lex (· < ·) (isoChars a) (isoChars b) := by
  obtain ⟨ha1, ha2, ha3, ha4, ha5, ha6, ha7, ha8, ha9, ha10⟩ := ha
  obtain ⟨hb1, hb2, hb3, hb4, hb5, hb6, hb7, hb8, hb9, hb10⟩ := hb
  unfold isoChars
  rcases h with h | ⟨e1, h⟩
  · exact lex_append_of_lex _ _ (by rw [padC_length, padC_length])
      (padC_lex 4 _ _ h (lt_pow4 _ hb2))
  rw [e1]
  refine lex_append_same _ _ _ (List.Lex.cons ?_)
  rcases h with h | ⟨e2, h⟩
  · exact lex_append_of_lex _ _ (by rw [padC_length, padC_length])
      (padC_lex 2 _ _ h (lt_pow2 _ (by omega)))
  rw [e2]
  refine lex_append_same _ _ _ (List.Lex.cons ?_)
  rcases h with h | ⟨e3, h⟩
  · exact lex_append_of_lex _ _ (by rw [padC_length, padC_length])
      (padC_lex 2 _ _ h (lt_pow2 _ (by omega)))
  rw [e3]
  refine lex_append_same _ _ _ (List.Lex.cons ?_)
  rcases h with h | ⟨e4, h⟩
  · exact lex_append_of_lex _ _ (by rw [padC_length, padC_length])
      (padC_lex 2 _ _ h (lt_pow2 _ (by omega)))
  rw [e4]
  refine lex_append_same _ _ _ (List.Lex.cons ?_)
  rcases h with h | ⟨e5, h⟩
  · exact lex_append_of_lex _ _ (by rw [padC_length, padC_length])
      (padC_lex 2 _ _ h (lt_pow2 _ (by omega)))
  rw [e5]
  refine lex_append_same _ _ _ (List.Lex.cons ?_)
  rcases h with h | ⟨e6, h⟩
  · exact lex_append_of_lex _ _ (by rw [padC_length, padC_length])
      (padC_lex 2 _ _ h (lt_pow2 _ (by omega)))
  rw [e6]
  refine lex_append_same _ _ _ ?_
  unfold usecSuffix
  rcases Nat.eq_zero_or_pos a.microsecond with h0 | hpos
  · rw [h0, if_pos rfl, if_neg (by omega)]
    exact List.Lex.nil
  · rw [if_neg (by omega), if_neg (by omega)]
    exact List.Lex.cons (padC_lex 6 _ _ h (lt_pow6 _ hb10))

/-- Helper: for datetime values within the field ranges, the isoformat text
compares (as text) exactly as the datetime values compare chronologically,
so the rendering is canonical and sortable. -/
theorem isoformat_lt_iff (a b : Datetime) (ha : dtValid a) (hb : dtValid b) :
    isoformat a < isoformat b ↔ dtLt a b := by
  constructor
  · intro h
    rcases dtLt_trichotomy a b with hlt | heq | hgt
    · exact hlt
    · exact absurd h (by rw [heq]; exact lt_irrefl _)
    · have h2 : isoformat b < isoformat a := by
        rw [String.lt_iff_toList_lt]
        exact isoChars_lt_of_dtLt b a hb ha hgt
      exact absurd h2 (lt_asymm h)
  · intro h
    rw [String.lt_iff_toList_lt]
    exact isoChars_lt_of_dtLt a b ha hb h

/-- C3: normalization omits the id key when the identifier is absent,
includes it verbatim when present, always carries both timestamps rendered
by isoformat, never contains an item whose value is absent, and the
isoformat rendering is canonical sortable text: the rendered strings compare
exactly as the datetime values compare chronologically. -/
theorem claim_C3_normalize (doc : FirestoreDocument) :
    (doc.id = none → ∀ v, ("id", v) ∉ FirestoreDocument.to_dict doc) ∧
    (∀ s, doc.id = some s → ("id", some s) ∈ FirestoreDocument.to_dict doc) ∧
    ("created_at", some (isoformat doc.created_at)) ∈ FirestoreDocument.to_dict doc ∧
    ("updated_at", some (isoformat doc.updated_at)) ∈ FirestoreDocument.to_dict doc ∧
    (∀ kv ∈ FirestoreDocument.to_dict doc, kv.2 ≠ none) ∧
    (∀ a b, dtValid a → dtValid b → (isoformat a < isoformat b ↔ dtLt a b)) := by
  refine ⟨?_, ?_, ?_, ?_, ?_, fun a b ha hb => isoformat_lt_iff a b ha hb⟩
  · intro h v
    unfold FirestoreDocument.to_dict
    rw [h]
    simp
  · intro s h
    unfold FirestoreDocument.to_dict
    rw [h]
    simp
  · unfold FirestoreDocument.to_dict
    cases doc.id <;> simp
  · unfold FirestoreDocument.to_dict
    cases doc.id <;> simp
  · intro kv hkv
    unfold FirestoreDocument.to_dict at hkv
    rw [List.mem_filter] at hkv
    intro hnone
    rw [hnone] at hkv
    simp at hkv

/-- Witness for C3 at a document with an assigned identifier and at two
concrete datetime values differing only in microseconds. -/
theorem claim_C3_witness :
    ("id", some "abc") ∈ FirestoreDocument.to_dict docW ∧
    (isoformat dtA < isoformat dtB ↔ dtLt dtA dtB) :=
  ⟨(claim_C3_normalize docW).2.1 "abc" rfl,
   (claim_C3_normalize docW).2.2.2.2.2 dtA dtB (by decide) (by decide)⟩

/-- C2: a manager whose initialization flag is set and whose client handle
is present returns success immediately from an initialization call, with the
state unchanged, and this holds uniformly in the outcome parameter of the
never-consulted connection attempt. -/
theorem claim_C2_init_idempotent (m : FirebaseManager) (outcome : ConnOutcome)
    (now : Datetime) (h1 : m._initialized = true) (h2 : m.db ≠ none) :
    FirebaseManager.managerInit m outcome now = (true, m) := by
  unfold FirebaseManager.managerInit
  rw [if_pos ⟨h1, h2⟩]

/-- Witness for C2 at a concrete initialized manager state. -/
theorem claim_C2_witness :
    FirebaseManager.managerInit readyManager ConnOutcome.success dtA =
      (true, readyManager) :=
  claim_C2_init_idempotent readyManager ConnOutcome.success dtA rfl (by decide)

/-- C8: in every reachable manager state the client handle is present
exactly when the initialization flag is set. -/
theorem claim_C8_handle_iff_flag (cfg : ACDEFConfig) (m : FirebaseManager)
    (h : Reachable cfg m) : m.db ≠ none ↔ m._initialized = true := by
  induction h with
  | init cp now => simp [FirebaseManager.mkManager]
  | step m outcome now hm ih =>
    unfold FirebaseManager.managerInit
    by_cases hc : m._initialized = true ∧ m.db ≠ none
    · rw [if_pos hc]; exact ih
    · rw [if_neg hc]
      cases outcome with
      | success => simp
      | failure e => exact ih

/-- Witness for C8 at a freshly constructed manager. -/
theorem claim_C8_witness :
    (FirebaseManager.mkManager none defaultConfig dtA).db ≠ none ↔
      (FirebaseManager.mkManager none defaultConfig dtA)._initialized = true :=
  claim_C8_handle_iff_flag defaultConfig _ (Reachable.init none dtA)

/-- C10: constructing a manager with the empty string as the explicit
credential path yields exactly the state constructed with no path, the
resulting credential path is the configured default, and more generally the
fallback triggers on every falsy argument. -/
theorem claim_C10_falsy_credential_fallback (cfg : ACDEFConfig) (now : Datetime) :
    FirebaseManager.mkManager (some "") cfg now = FirebaseManager.mkManager none cfg now ∧
    (FirebaseManager.mkManager (some "") cfg now).credential_path =
      cfg.FIREBASE_CREDENTIALS_PATH ∧
    (∀ a, pyTruthyOptStr a = false →
      FirebaseManager.mkManager a cfg now = FirebaseManager.mkManager none cfg now) := by
  refine ⟨rfl, rfl, ?_⟩
  intro a ha
  unfold FirebaseManager.mkManager pyOrOptStr
  rw [ha]
  rfl

/-- Witness for C10 at the default configuration. -/
theorem claim_C10_witness :
    FirebaseManager.mkManager (some "") defaultConfig dtA =
      FirebaseManager.mkManager none defaultConfig dtA :=
  (claim_C10_falsy_credential_fallback defaultConfig dtA).2.2 (some "") (by decide)
